import Mathlib

/-! # Maintenance-mode middleware (`maintenance.go`)

A shallow embedding of the Traefik maintenance plugin and the properties of its
request handling.

The Go program talks to three things that live outside of it: the filesystem
(`os.Stat`, `ioutil.ReadFile`), the response sink (`http.ResponseWriter`) and the
downstream handler (`next`).  They are modelled as explicit state:

* `FileSystem` gives, for every path, the result of `os.Stat` and of
  `ioutil.ReadFile`; the two are independent (a path can be stat-able and
  unreadable, as a directory is).
* `ResponseWriter` is the state of a response sink that behaves as the sinks of
  `net/http` do: `WriteHeader` panics on a code outside 100..999, sends a code
  1xx other than 101 as an interim response without fixing the status, and
  otherwise fixes the status and takes a snapshot of the header map, once; a
  `Write` before the status is fixed implies `WriteHeader(200)`.
* `Handler` is an arbitrary downstream handler: a function of the sink, the
  request and the environment (filesystem and a state of its own).

A panic stops the method at the statement that raised it; the store reached
until then is kept.  Every primitive step of the plugin is appended to a trace
of `Event`s, so that the order and the number of its interactions can be stated.
-/

namespace Maintenance

/-! ## Data model -/

/-- Go `[]byte`. -/
abbrev Bytes := List UInt8

/-- Go `string`: an immutable sequence of bytes. -/
structure GoString where
  bytes : Bytes
deriving DecidableEq, Repr

/-- Conversion `string(b)` of a byte slice: copies the bytes. -/
def GoString.ofBytes (b : Bytes) : GoString := ⟨b⟩

/-- Conversion `[]byte(s)` of a string: copies the bytes. -/
def GoString.toBytes (s : GoString) : Bytes := s.bytes

/-- Bytes of a string literal of the source (UTF-8, as Go source text is). -/
def literalBytes (s : String) : Bytes := s.toUTF8.data.toList

/-- Errors of the `os` package, as far as a caller can tell them apart. -/
inductive IOError where
  | notExist
  | permission
  | isDirectory
  | other (msg : String)
deriving DecidableEq, Repr

/-- What `os.Stat` returns on success; the plugin discards it. -/
structure FileInfo where
  size : Nat
  isDir : Bool
deriving DecidableEq, Repr

/-- Filesystem as seen at one moment: the answers of `os.Stat` and of
`ioutil.ReadFile` for every path. -/
structure FileSystem where
  stat : String → Except IOError FileInfo
  readFile : String → Except IOError Bytes

/-- Header map `http.Header`: keys with their list of values. -/
abbrev Header := List (String × List String)

/-- Method `Header.Set`: replaces the values of the key by the single value. -/
def Header.set (h : Header) (key value : String) : Header :=
  (key, [value]) :: h.filter (fun kv => kv.1 != key)

/-- Values stored under a key, if any. -/
def Header.values (h : Header) (key : String) : Option (List String) :=
  (h.find? (fun kv => kv.1 == key)).map Prod.snd

/-- Method `Header.Get`: the first value of the key, the empty string if none. -/
def Header.get (h : Header) (key : String) : String :=
  match h.values key with
  | some (v :: _) => v
  | _ => ""

/-- Request `*http.Request`, with `path` standing for `req.URL.Path`. -/
structure Request where
  method : String
  path : String
  rawQuery : String
  header : Header
  body : Bytes
deriving DecidableEq, Repr

/-- Method `Header.Del`: removes the key. -/
def Header.del (h : Header) (key : String) : Header :=
  h.filter (fun kv => kv.1 != key)

/-- Value a panic carries. -/
inductive Panic where
  | invalidWriteHeaderCode (code : Int)
deriving DecidableEq, Repr

/-- State of a response sink (`http.ResponseWriter`).
`header` is the live map returned by `Header()`; `status` and `sent` are the
status code and the header snapshot fixed by the first final `WriteHeader`;
`informational` lists the interim 1xx responses sent before it; `body` is
everything written so far. -/
structure ResponseWriter where
  header : Header
  wroteHeader : Bool
  status : Int
  sent : Header
  informational : List Int
  body : Bytes
deriving DecidableEq, Repr

/-- Sink on which nothing has been sent yet, with a given header map. -/
def ResponseWriter.fresh (h : Header) : ResponseWriter :=
  { header := h, wroteHeader := false, status := 0, sent := [], informational := [],
    body := [] }

/-- Sink operation `rw.Header().Set(key, value)`. -/
def ResponseWriter.headerSet (rw : ResponseWriter) (key value : String) : ResponseWriter :=
  { rw with header := Header.set rw.header key value }

/-- Sink operation `rw.Header().Del(key)`. -/
def ResponseWriter.headerDel (rw : ResponseWriter) (key : String) : ResponseWriter :=
  { rw with header := Header.del rw.header key }

/-- Final path of `WriteHeader`: fixes the status and the header snapshot, unless
that was done before. -/
def ResponseWriter.finalHeader (rw : ResponseWriter) (code : Int) : ResponseWriter :=
  if rw.wroteHeader then rw
  else { rw with wroteHeader := true, status := code, sent := rw.header }

/-- Sink operation `rw.WriteHeader(code)` as `net/http` does it: a call after the
status is fixed is ignored; otherwise a code below 100 or above 999 panics
(`checkWriteHeaderCode`), a code 1xx other than 101 is sent as an interim
response and leaves the status open, any other code fixes the status. -/
def ResponseWriter.writeHeader (rw : ResponseWriter) (code : Int) :
    Except Panic ResponseWriter :=
  if rw.wroteHeader then .ok rw
  else if code < 100 ∨ code > 999 then .error (Panic.invalidWriteHeaderCode code)
  else if 100 ≤ code ∧ code ≤ 199 ∧ code ≠ 101 then
    .ok { rw with informational := rw.informational ++ [code] }
  else .ok (rw.finalHeader code)

/-- Sink operation `rw.Write(data)`: does `WriteHeader(200)` if the status is not
fixed, then appends to the body. -/
def ResponseWriter.write (rw : ResponseWriter) (data : Bytes) : ResponseWriter :=
  let rw1 := rw.finalHeader 200
  { rw1 with body := rw1.body ++ data }

/-- Everything outside the plugin that a request can touch: the filesystem and
the state of the downstream part of the pipeline. -/
structure Env (σ : Type) where
  fs : FileSystem
  down : σ

/-- Downstream `http.Handler`: given the sink, the request and the environment,
it leaves a sink and an environment. -/
structure Handler (σ : Type) where
  serveHTTP : ResponseWriter → Request → Env σ → ResponseWriter × Env σ

/-- Configuration `Config`. -/
structure Config where
  Enabled : Bool
  Filename : String
  TriggerFilename : String
  HTTPResponseCode : Int
  HTTPContentType : String
  ImageFile : String
deriving DecidableEq, Repr

/-- Default configuration `CreateConfig`. -/
def CreateConfig : Config :=
  { Enabled := true
    Filename := "/path/to/maintenance.html"
    TriggerFilename := "/path/to/maintenance.trigger"
    HTTPResponseCode := 503
    HTTPContentType := "text/html; charset=utf-8"
    ImageFile := "/path/to/maintenance-image.png" }

/-- Plugin instance `MaintenancePlugin`. -/
structure MaintenancePlugin (σ : Type) where
  next : Handler σ
  name : String
  enabled : Bool
  filename : String
  triggerFilename : String
  httpResponseCode : Int
  httpContentType : String
  imageFile : String
  htmlContent : GoString

/-- One primitive interaction of the plugin with the outside. -/
inductive Event where
  | stat (path : String)
  | readFile (path : String)
  | headerSet (key value : String)
  | headerDel (key : String)
  | writeHeader (code : Int)
  | write (data : Bytes)
  | serveNext (rw : ResponseWriter) (req : Request)
deriving DecidableEq, Repr

/-- Store a method call runs on: the receiver `*m`, the sink `rw` points to, the
environment, and the trace of the plugin's interactions so far. -/
structure Machine (σ : Type) where
  self : MaintenancePlugin σ
  rw : ResponseWriter
  env : Env σ
  trace : List Event

/-- Computations of the plugin: they act on the store and end normally or in a
panic. -/
abbrev M (σ : Type) := ExceptT Panic (StateM (Machine σ))

variable {σ : Type}

/-! ## Primitive steps -/

/-- Library call `os.Stat(name)`. -/
def osStat (name : String) : M σ (Except IOError FileInfo) := fun s =>
  (.ok (s.env.fs.stat name), { s with trace := s.trace ++ [Event.stat name] })

/-- Library call `ioutil.ReadFile(name)`. -/
def ioutilReadFile (name : String) : M σ (Except IOError Bytes) := fun s =>
  (.ok (s.env.fs.readFile name), { s with trace := s.trace ++ [Event.readFile name] })

/-- Statement `rw.Header().Set(key, value)`. -/
def rwHeaderSet (key value : String) : M σ Unit := fun s =>
  (.ok (), { s with rw := s.rw.headerSet key value,
                    trace := s.trace ++ [Event.headerSet key value] })

/-- Statement `rw.Header().Del(key)`. -/
def rwHeaderDel (key : String) : M σ Unit := fun s =>
  (.ok (), { s with rw := s.rw.headerDel key, trace := s.trace ++ [Event.headerDel key] })

/-- Statement `rw.WriteHeader(code)`: the call is made; when the sink panics the
sink stays as it was and the panic goes up. -/
def rwWriteHeader (code : Int) : M σ Unit := fun s =>
  match s.rw.writeHeader code with
  | .ok rw1 => (.ok (), { s with rw := rw1, trace := s.trace ++ [Event.writeHeader code] })
  | .error p => (.error p, { s with trace := s.trace ++ [Event.writeHeader code] })

/-- Statement `rw.Write(data)`. -/
def rwWrite (data : Bytes) : M σ Unit := fun s =>
  (.ok (), { s with rw := s.rw.write data, trace := s.trace ++ [Event.write data] })

/-- Statement `m.next.ServeHTTP(rw, req)`. -/
def nextServeHTTP (req : Request) : M σ Unit := fun s =>
  let r := s.self.next.serveHTTP s.rw req s.env
  (.ok (), { s with rw := r.1, env := r.2, trace := s.trace ++ [Event.serveNext s.rw req] })

/-- The receiver `m`. -/
def receiver : M σ (MaintenancePlugin σ) := fun s => (.ok s.self, s)

/-- Constant `http.StatusNotFound`. -/
def StatusNotFound : Int := 404

/-- Constant `http.StatusOK`. -/
def StatusOK : Int := 200

/-- Library function `http.Error(rw, error, code)` of `net/http`: drops a
`Content-Length` that was meant for other content, then sends a plain-text reply
made of the message and a newline (`fmt.Fprintln`). -/
def httpError (error : String) (code : Int) : M σ Unit := do
  rwHeaderDel "Content-Length"
  rwHeaderSet "Content-Type" "text/plain; charset=utf-8"
  rwHeaderSet "X-Content-Type-Options" "nosniff"
  rwWriteHeader code
  rwWrite (literalBytes (error ++ "\n"))

/-! ## The program -/

/-- Function `fileExists`: whether `os.Stat` returns no error. -/
def fileExists (filename : String) : M σ Bool := do
  let r ← osStat filename
  match r with
  | .ok _ => pure true
  | .error _ => pure false

/-- Function `New`: reads the HTML file and builds the plugin, or returns the
read error and no plugin. -/
def New (fs : FileSystem) (next : Handler σ) (config : Config) (name : String) :
    Except IOError (MaintenancePlugin σ) :=
  match fs.readFile config.Filename with
  | .error err => .error err
  | .ok htmlContent =>
    .ok { next := next
          name := name
          enabled := config.Enabled
          filename := config.Filename
          triggerFilename := config.TriggerFilename
          httpResponseCode := config.HTTPResponseCode
          httpContentType := config.HTTPContentType
          imageFile := config.ImageFile
          htmlContent := GoString.ofBytes htmlContent }

/-- Method `serveImage`. -/
def serveImage (_req : Request) : M σ Unit := do
  let m ← receiver
  let r ← ioutilReadFile m.imageFile
  match r with
  | .error _ => httpError "Image not found" StatusNotFound
  | .ok imgContent =>
    rwHeaderSet "Content-Type" "image/png"
    rwWriteHeader StatusOK
    rwWrite imgContent

/-- Method `ServeHTTP`.  The condition `m.enabled && fileExists(...)` is
short-circuit: the stat happens only when `enabled` holds. -/
def ServeHTTP (req : Request) : M σ Unit := do
  let m ← receiver
  let active ← if m.enabled then fileExists m.triggerFilename else pure false
  if active then
    if req.path = "/maintenance-image.png" then
      serveImage req
    else
      rwHeaderSet "Content-Type" m.httpContentType
      rwWriteHeader m.httpResponseCode
      rwWrite (GoString.toBytes m.htmlContent)
  else
    nextServeHTTP req

/-- Call `m.ServeHTTP(rw, req)` in environment `env`, the trace starting empty:
how the call ends and the store it leaves. -/
def call (m : MaintenancePlugin σ) (rw : ResponseWriter) (req : Request) (env : Env σ) :
    Except Panic Unit × Machine σ :=
  ServeHTTP req { self := m, rw := rw, env := env, trace := [] }

/-- Store that the call `m.ServeHTTP(rw, req)` leaves, with the trace of this
call alone. -/
def handle (m : MaintenancePlugin σ) (rw : ResponseWriter) (req : Request) (env : Env σ) :
    Machine σ :=
  (call m rw req env).2

/-- How the call `m.ServeHTTP(rw, req)` ends: normally, or in a panic. -/
def outcome (m : MaintenancePlugin σ) (rw : ResponseWriter) (req : Request) (env : Env σ) :
    Except Panic Unit :=
  (call m rw req env).1

/-- Whether `os.Stat` of the path succeeds in this filesystem. -/
def statOk (fs : FileSystem) (p : String) : Bool :=
  match fs.stat p with
  | .ok _ => true
  | .error _ => false

/-- Number of invocations of the downstream handler in a trace. -/
def nextCalls : List Event → Nat
  | [] => 0
  | Event.serveNext _ _ :: t => nextCalls t + 1
  | _ :: t => nextCalls t

/-- Whether an event is a filesystem access. -/
def Event.isFs : Event → Bool
  | Event.stat _ => true
  | Event.readFile _ => true
  | _ => false

/-- Whether an event is an operation of the plugin on the sink. -/
def Event.isSink : Event → Bool
  | Event.headerSet _ _ => true
  | Event.headerDel _ => true
  | Event.writeHeader _ => true
  | Event.write _ => true
  | _ => false

/-! ## Sample data -/

/-- Filesystem with a trigger `/t`, a page `/m.html` and an image `/i.png`. -/
def fsDemo : FileSystem :=
  { stat := fun p =>
      if p = "/t" then .ok ⟨0, false⟩
      else if p = "/m.html" then .ok ⟨3, false⟩
      else if p = "/i.png" then .ok ⟨2, false⟩
      else .error IOError.notExist
    readFile := fun p =>
      if p = "/m.html" then .ok [60, 104, 62]
      else if p = "/i.png" then .ok [137, 80]
      else .error IOError.notExist }

/-- Filesystem in which only the trigger `/t` is left: the page and the image
are gone. -/
def fsTriggerOnly : FileSystem :=
  { stat := fun p => if p = "/t" then .ok ⟨0, false⟩ else .error IOError.notExist
    readFile := fun _ => .error IOError.notExist }

/-- Filesystem in which the trigger `/t` is there but cannot be examined, the
page and the image being in place. -/
def fsDenied : FileSystem :=
  { stat := fun p => if p = "/t" then .error IOError.permission else fsDemo.stat p
    readFile := fsDemo.readFile }

/-- Downstream handler that answers 200 with the body of the request and counts
its calls. -/
def echoNext : Handler Nat :=
  ⟨fun rw req env => ((rw.finalHeader 200).write req.body, { env with down := env.down + 1 })⟩

/-- Configuration over `fsDemo`. -/
def cfgDemo : Config :=
  { Enabled := true, Filename := "/m.html", TriggerFilename := "/t",
    HTTPResponseCode := 503, HTTPContentType := "text/html; charset=utf-8",
    ImageFile := "/i.png" }

/-- Plugin that `New` builds from `cfgDemo` over `fsDemo`. -/
def pluginDemo : MaintenancePlugin Nat :=
  { next := echoNext, name := "maintenance", enabled := true, filename := "/m.html",
    triggerFilename := "/t", httpResponseCode := 503,
    httpContentType := "text/html; charset=utf-8", imageFile := "/i.png",
    htmlContent := ⟨[60, 104, 62]⟩ }

/-- Downstream handler that answers 418 with a fixed body and leaves the
environment alone. -/
def teapotNext : Handler Nat :=
  ⟨fun rw _ env => ((rw.finalHeader 418).write [116], env)⟩

/-- The same plugin, switched off. -/
def pluginOff : MaintenancePlugin Nat := { pluginDemo with enabled := false }

/-- A `GET` request for a path, with a one-byte body. -/
def reqDemo (p : String) : Request :=
  { method := "GET", path := p, rawQuery := "", header := [], body := [7] }

/-- A `POST` request for a path, with a query, a header and a body. -/
def reqPost (p : String) : Request :=
  { method := "POST", path := p, rawQuery := "a=1", header := [("Accept", ["*/*"])],
    body := [1, 2, 3] }


/-! ## Lemmas on the sink -/

theorem Header.values_set (h : Header) (key value : String) :
    Header.values (Header.set h key value) key = some [value] := by
  simp [Header.values, Header.set]

theorem Header.get_set (h : Header) (key value : String) :
    Header.get (Header.set h key value) key = value := by
  simp [Header.get, Header.values_set]

theorem Header.values_set_of_ne (h : Header) (key other value : String) (hne : other ≠ key) :
    Header.values (Header.set h other value) key = Header.values h key := by
  have h1 : (other == key) = false := by simpa using hne
  simp only [Header.values, Header.set, List.find?_cons, h1]
  congr 1
  induction h with
  | nil => rfl
  | cons a t ih =>
    by_cases ha : a.1 = other
    · simp [List.filter_cons, ha, ih, List.find?_cons, h1]
    · simp [List.filter_cons, ha, List.find?_cons, ih]

/-- On a code that is 101 or lies in 200..999, `WriteHeader` ends normally and
takes the final path. -/
theorem writeHeader_final (rw : ResponseWriter) (code : Int)
    (hcode : (code = 101 ∨ 200 ≤ code) ∧ code ≤ 999) :
    rw.writeHeader code = .ok (rw.finalHeader code) := by
  unfold ResponseWriter.writeHeader
  cases hw : rw.wroteHeader with
  | true => simp [ResponseWriter.finalHeader, hw]
  | false =>
    have h1 : ¬ (code < 100 ∨ code > 999) := by omega
    have h2 : ¬ (100 ≤ code ∧ code ≤ 199 ∧ code ≠ 101) := by omega
    simp [h1, h2]

/-- Reply of the form set one header, fix the status, write the body, on a sink
that has sent nothing. -/
theorem sink_reply (rw : ResponseWriter) (key value : String) (code : Int) (data : Bytes)
    (hrw : rw.wroteHeader = false) :
    ((rw.headerSet key value).finalHeader code).write data =
      { header := Header.set rw.header key value, wroteHeader := true, status := code,
        sent := Header.set rw.header key value, informational := rw.informational,
        body := rw.body ++ data } := by
  simp [ResponseWriter.headerSet, ResponseWriter.finalHeader, ResponseWriter.write, hrw]

/-- Reply of `http.Error` on a sink that has sent nothing. -/
theorem sink_error_reply (rw : ResponseWriter) (k0 k1 v1 k2 v2 : String) (code : Int)
    (data : Bytes) (hrw : rw.wroteHeader = false) :
    ((((rw.headerDel k0).headerSet k1 v1).headerSet k2 v2).finalHeader code).write data =
      { header := Header.set (Header.set (Header.del rw.header k0) k1 v1) k2 v2,
        wroteHeader := true, status := code,
        sent := Header.set (Header.set (Header.del rw.header k0) k1 v1) k2 v2,
        informational := rw.informational, body := rw.body ++ data } := by
  simp [ResponseWriter.headerDel, ResponseWriter.headerSet, ResponseWriter.finalHeader,
    ResponseWriter.write, hrw]

theorem literalBytes_notFound :
    literalBytes ("Image not found" ++ "\n") =
      [73, 109, 97, 103, 101, 32, 110, 111, 116, 32, 102, 111, 117, 110, 100, 10] := by
  decide

/-! ## Lemmas on `New` and `fileExists` -/

theorem statOk_eq_true_iff (fs : FileSystem) (p : String) :
    statOk fs p = true ↔ ∃ info, fs.stat p = .ok info := by
  unfold statOk
  cases h : fs.stat p <;> simp

theorem statOk_eq_false_iff (fs : FileSystem) (p : String) :
    statOk fs p = false ↔ ∃ err, fs.stat p = .error err := by
  unfold statOk
  cases h : fs.stat p <;> simp

theorem fileExists_run (filename : String) (s : Machine σ) :
    fileExists filename s =
      (.ok (statOk s.env.fs filename),
        { s with trace := s.trace ++ [Event.stat filename] }) := by
  unfold statOk
  cases h : s.env.fs.stat filename <;>
    simp [fileExists, osStat, h, bind, ExceptT.bind, ExceptT.mk, ExceptT.bindCont,
      StateT.bind, pure, ExceptT.pure, StateT.pure]

theorem New_ok (fs : FileSystem) (next : Handler σ) (config : Config) (name : String)
    (html : Bytes) (h : fs.readFile config.Filename = .ok html) :
    New fs next config name =
      .ok { next := next, name := name, enabled := config.Enabled,
            filename := config.Filename, triggerFilename := config.TriggerFilename,
            httpResponseCode := config.HTTPResponseCode,
            httpContentType := config.HTTPContentType, imageFile := config.ImageFile,
            htmlContent := ⟨html⟩ } := by
  simp [New, h, GoString.ofBytes]

theorem New_error (fs : FileSystem) (next : Handler σ) (config : Config) (name : String)
    (err : IOError) (h : fs.readFile config.Filename = .error err) :
    New fs next config name = .error err := by
  simp [New, h]

/-! ## Branch lemmas: how `ServeHTTP` ends and the store it leaves -/

theorem call_disabled (m : MaintenancePlugin σ) (rw : ResponseWriter) (req : Request)
    (env : Env σ) (hen : m.enabled = false) :
    call m rw req env =
      (.ok (),
        { self := m, rw := (m.next.serveHTTP rw req env).1,
          env := (m.next.serveHTTP rw req env).2, trace := [Event.serveNext rw req] }) := by
  simp [call, ServeHTTP, receiver, nextServeHTTP, hen, bind, ExceptT.bind, ExceptT.mk,
    ExceptT.bindCont, StateT.bind, pure, ExceptT.pure, StateT.pure]

theorem call_noTrigger (m : MaintenancePlugin σ) (rw : ResponseWriter) (req : Request)
    (env : Env σ) (hen : m.enabled = true) (hst : statOk env.fs m.triggerFilename = false) :
    call m rw req env =
      (.ok (),
        { self := m, rw := (m.next.serveHTTP rw req env).1,
          env := (m.next.serveHTTP rw req env).2,
          trace := [Event.stat m.triggerFilename, Event.serveNext rw req] }) := by
  simp [call, ServeHTTP, receiver, nextServeHTTP, fileExists_run, hen, hst, bind,
    ExceptT.bind, ExceptT.mk, ExceptT.bindCont, StateT.bind, pure, ExceptT.pure, StateT.pure]

theorem call_html (m : MaintenancePlugin σ) (rw : ResponseWriter) (req : Request)
    (env : Env σ) (hen : m.enabled = true) (hst : statOk env.fs m.triggerFilename = true)
    (hpath : req.path ≠ "/maintenance-image.png") :
    call m rw req env =
      match (rw.headerSet "Content-Type" m.httpContentType).writeHeader m.httpResponseCode with
      | .ok rw1 =>
        (.ok (),
          { self := m, rw := rw1.write m.htmlContent.bytes, env := env,
            trace := [Event.stat m.triggerFilename,
                      Event.headerSet "Content-Type" m.httpContentType,
                      Event.writeHeader m.httpResponseCode,
                      Event.write m.htmlContent.bytes] })
      | .error p =>
        (.error p,
          { self := m, rw := rw.headerSet "Content-Type" m.httpContentType, env := env,
            trace := [Event.stat m.triggerFilename,
                      Event.headerSet "Content-Type" m.httpContentType,
                      Event.writeHeader m.httpResponseCode] }) := by
  cases h : (rw.headerSet "Content-Type" m.httpContentType).writeHeader m.httpResponseCode <;>
    simp [call, ServeHTTP, receiver, rwHeaderSet, rwWriteHeader, rwWrite, fileExists_run, hen,
      hst, hpath, h, GoString.toBytes, bind, ExceptT.bind, ExceptT.mk, ExceptT.bindCont,
      StateT.bind, pure, ExceptT.pure, StateT.pure]

theorem call_image_ok (m : MaintenancePlugin σ) (rw : ResponseWriter) (req : Request)
    (env : Env σ) (img : Bytes) (hen : m.enabled = true)
    (hst : statOk env.fs m.triggerFilename = true)
    (hpath : req.path = "/maintenance-image.png")
    (himg : env.fs.readFile m.imageFile = .ok img) :
    call m rw req env =
      (.ok (),
        { self := m
          rw := ((rw.headerSet "Content-Type" "image/png").finalHeader 200).write img
          env := env
          trace := [Event.stat m.triggerFilename, Event.readFile m.imageFile,
                    Event.headerSet "Content-Type" "image/png", Event.writeHeader 200,
                    Event.write img] }) := by
  have hw := writeHeader_final (rw.headerSet "Content-Type" "image/png") 200 (by omega)
  simp [call, ServeHTTP, serveImage, receiver, ioutilReadFile, rwHeaderSet, rwWriteHeader,
    rwWrite, fileExists_run, hen, hst, hpath, himg, hw, StatusOK, bind, ExceptT.bind,
    ExceptT.mk, ExceptT.bindCont, StateT.bind, pure, ExceptT.pure, StateT.pure]

theorem call_image_error (m : MaintenancePlugin σ) (rw : ResponseWriter) (req : Request)
    (env : Env σ) (err : IOError) (hen : m.enabled = true)
    (hst : statOk env.fs m.triggerFilename = true)
    (hpath : req.path = "/maintenance-image.png")
    (himg : env.fs.readFile m.imageFile = .error err) :
    call m rw req env =
      (.ok (),
        { self := m
          rw := ((((rw.headerDel "Content-Length").headerSet "Content-Type"
                  "text/plain; charset=utf-8").headerSet
                  "X-Content-Type-Options" "nosniff").finalHeader 404).write
                  [73, 109, 97, 103, 101, 32, 110, 111, 116, 32, 102, 111, 117, 110, 100, 10]
          env := env
          trace := [Event.stat m.triggerFilename, Event.readFile m.imageFile,
                    Event.headerDel "Content-Length",
                    Event.headerSet "Content-Type" "text/plain; charset=utf-8",
                    Event.headerSet "X-Content-Type-Options" "nosniff",
                    Event.writeHeader 404,
                    Event.write
                      [73, 109, 97, 103, 101, 32, 110, 111, 116, 32, 102, 111, 117, 110, 100,
                        10]] }) := by
  have hw := writeHeader_final
    (((rw.headerDel "Content-Length").headerSet "Content-Type"
      "text/plain; charset=utf-8").headerSet "X-Content-Type-Options" "nosniff") 404
    (by omega)
  simp only [call, ServeHTTP, serveImage, httpError, receiver, ioutilReadFile, rwHeaderDel,
    rwHeaderSet, rwWriteHeader, rwWrite, fileExists_run, hen, hst, hpath, himg, hw,
    StatusNotFound, literalBytes_notFound, bind, ExceptT.bind, ExceptT.mk, ExceptT.bindCont,
    StateT.bind, pure, ExceptT.pure, StateT.pure, if_true, List.nil_append,
    List.cons_append, List.append_assoc]

theorem handle_disabled (m : MaintenancePlugin σ) (rw : ResponseWriter) (req : Request)
    (env : Env σ) (hen : m.enabled = false) :
    handle m rw req env =
      { self := m, rw := (m.next.serveHTTP rw req env).1, env := (m.next.serveHTTP rw req env).2,
        trace := [Event.serveNext rw req] } := by
  rw [handle, call_disabled m rw req env hen]

theorem handle_noTrigger (m : MaintenancePlugin σ) (rw : ResponseWriter) (req : Request)
    (env : Env σ) (hen : m.enabled = true) (hst : statOk env.fs m.triggerFilename = false) :
    handle m rw req env =
      { self := m, rw := (m.next.serveHTTP rw req env).1, env := (m.next.serveHTTP rw req env).2,
        trace := [Event.stat m.triggerFilename, Event.serveNext rw req] } := by
  rw [handle, call_noTrigger m rw req env hen hst]

theorem call_html_ok (m : MaintenancePlugin σ) (rw rw1 : ResponseWriter) (req : Request)
    (env : Env σ) (hen : m.enabled = true) (hst : statOk env.fs m.triggerFilename = true)
    (hpath : req.path ≠ "/maintenance-image.png")
    (hw : (rw.headerSet "Content-Type" m.httpContentType).writeHeader m.httpResponseCode =
      .ok rw1) :
    call m rw req env =
      (.ok (),
        { self := m, rw := rw1.write m.htmlContent.bytes, env := env,
          trace := [Event.stat m.triggerFilename,
                    Event.headerSet "Content-Type" m.httpContentType,
                    Event.writeHeader m.httpResponseCode,
                    Event.write m.htmlContent.bytes] }) := by
  rw [call_html m rw req env hen hst hpath, hw]

theorem call_html_panic (m : MaintenancePlugin σ) (rw : ResponseWriter) (req : Request)
    (env : Env σ) (p : Panic) (hen : m.enabled = true)
    (hst : statOk env.fs m.triggerFilename = true)
    (hpath : req.path ≠ "/maintenance-image.png")
    (hw : (rw.headerSet "Content-Type" m.httpContentType).writeHeader m.httpResponseCode =
      .error p) :
    call m rw req env =
      (.error p,
        { self := m, rw := rw.headerSet "Content-Type" m.httpContentType, env := env,
          trace := [Event.stat m.triggerFilename,
                    Event.headerSet "Content-Type" m.httpContentType,
                    Event.writeHeader m.httpResponseCode] }) := by
  rw [call_html m rw req env hen hst hpath, hw]

theorem handle_image_ok (m : MaintenancePlugin σ) (rw : ResponseWriter) (req : Request)
    (env : Env σ) (img : Bytes) (hen : m.enabled = true)
    (hst : statOk env.fs m.triggerFilename = true)
    (hpath : req.path = "/maintenance-image.png")
    (himg : env.fs.readFile m.imageFile = .ok img) :
    handle m rw req env =
      { self := m
        rw := ((rw.headerSet "Content-Type" "image/png").finalHeader 200).write img
        env := env
        trace := [Event.stat m.triggerFilename, Event.readFile m.imageFile,
                  Event.headerSet "Content-Type" "image/png", Event.writeHeader 200,
                  Event.write img] } := by
  rw [handle, call_image_ok m rw req env img hen hst hpath himg]

theorem handle_image_error (m : MaintenancePlugin σ) (rw : ResponseWriter) (req : Request)
    (env : Env σ) (err : IOError) (hen : m.enabled = true)
    (hst : statOk env.fs m.triggerFilename = true)
    (hpath : req.path = "/maintenance-image.png")
    (himg : env.fs.readFile m.imageFile = .error err) :
    handle m rw req env =
      { self := m
        rw := ((((rw.headerDel "Content-Length").headerSet "Content-Type"
                "text/plain; charset=utf-8").headerSet
                "X-Content-Type-Options" "nosniff").finalHeader 404).write
                [73, 109, 97, 103, 101, 32, 110, 111, 116, 32, 102, 111, 117, 110, 100, 10]
        env := env
        trace := [Event.stat m.triggerFilename, Event.readFile m.imageFile,
                  Event.headerDel "Content-Length",
                  Event.headerSet "Content-Type" "text/plain; charset=utf-8",
                  Event.headerSet "X-Content-Type-Options" "nosniff",
                  Event.writeHeader 404,
                  Event.write
                    [73, 109, 97, 103, 101, 32, 110, 111, 116, 32, 102, 111, 117, 110, 100,
                      10]] } := by
  rw [handle, call_image_error m rw req env err hen hst hpath himg]

/-! ## Properties shared by all branches -/

theorem handle_self (m : MaintenancePlugin σ) (rw : ResponseWriter) (req : Request)
    (env : Env σ) : (handle m rw req env).self = m := by
  cases hen : m.enabled with
  | false => rw [handle_disabled m rw req env hen]
  | true =>
    cases hst : statOk env.fs m.triggerFilename with
    | false => rw [handle_noTrigger m rw req env hen hst]
    | true =>
      by_cases hp : req.path = "/maintenance-image.png"
      · cases hi : env.fs.readFile m.imageFile with
        | ok img => rw [handle_image_ok m rw req env img hen hst hp hi]
        | error err => rw [handle_image_error m rw req env err hen hst hp hi]
      · cases hw : (rw.headerSet "Content-Type" m.httpContentType).writeHeader
            m.httpResponseCode with
        | ok rw1 => rw [handle, call_html_ok m rw rw1 req env hen hst hp hw]
        | error p => rw [handle, call_html_panic m rw req env p hen hst hp hw]

theorem handle_env_active (m : MaintenancePlugin σ) (rw : ResponseWriter) (req : Request)
    (env : Env σ) (hen : m.enabled = true) (hst : statOk env.fs m.triggerFilename = true) :
    (handle m rw req env).env = env := by
  by_cases hp : req.path = "/maintenance-image.png"
  · cases hi : env.fs.readFile m.imageFile with
    | ok img => rw [handle_image_ok m rw req env img hen hst hp hi]
    | error err => rw [handle_image_error m rw req env err hen hst hp hi]
  · cases hw : (rw.headerSet "Content-Type" m.httpContentType).writeHeader
        m.httpResponseCode with
    | ok rw1 => rw [handle, call_html_ok m rw rw1 req env hen hst hp hw]
    | error p => rw [handle, call_html_panic m rw req env p hen hst hp hw]

theorem handle_nextCalls_active (m : MaintenancePlugin σ) (rw : ResponseWriter) (req : Request)
    (env : Env σ) (hen : m.enabled = true) (hst : statOk env.fs m.triggerFilename = true) :
    nextCalls (handle m rw req env).trace = 0 := by
  by_cases hp : req.path = "/maintenance-image.png"
  · cases hi : env.fs.readFile m.imageFile with
    | ok img => rw [handle_image_ok m rw req env img hen hst hp hi]; rfl
    | error err => rw [handle_image_error m rw req env err hen hst hp hi]; rfl
  · cases hw : (rw.headerSet "Content-Type" m.httpContentType).writeHeader
        m.httpResponseCode with
    | ok rw1 => rw [handle, call_html_ok m rw rw1 req env hen hst hp hw]; rfl
    | error p => rw [handle, call_html_panic m rw req env p hen hst hp hw]; rfl

theorem handle_nextCalls_inactive (m : MaintenancePlugin σ) (rw : ResponseWriter)
    (req : Request) (env : Env σ)
    (h : m.enabled = false ∨ statOk env.fs m.triggerFilename = false) :
    nextCalls (handle m rw req env).trace = 1 := by
  cases hen : m.enabled with
  | false => rw [handle_disabled m rw req env hen]; rfl
  | true =>
    have hst : statOk env.fs m.triggerFilename = false := by
      rcases h with h | h
      · rw [hen] at h; cases h
      · exact h
    rw [handle_noTrigger m rw req env hen hst]; rfl

/-- While maintenance mode is active the call does not depend on the downstream
handler the plugin holds. -/
theorem call_active_next_irrelevant (m : MaintenancePlugin σ) (next2 : Handler σ)
    (rw : ResponseWriter) (req : Request) (env : Env σ) (hen : m.enabled = true)
    (hst : statOk env.fs m.triggerFilename = true) :
    (call { m with next := next2 } rw req env).1 = (call m rw req env).1 ∧
    (call { m with next := next2 } rw req env).2.rw = (call m rw req env).2.rw ∧
    (call { m with next := next2 } rw req env).2.env = (call m rw req env).2.env ∧
    (call { m with next := next2 } rw req env).2.trace = (call m rw req env).2.trace := by
  by_cases hp : req.path = "/maintenance-image.png"
  · cases hi : env.fs.readFile m.imageFile with
    | ok img =>
      rw [call_image_ok m rw req env img hen hst hp hi,
        call_image_ok { m with next := next2 } rw req env img hen hst hp hi]
      exact ⟨rfl, rfl, rfl, rfl⟩
    | error err =>
      rw [call_image_error m rw req env err hen hst hp hi,
        call_image_error { m with next := next2 } rw req env err hen hst hp hi]
      exact ⟨rfl, rfl, rfl, rfl⟩
  · cases hw : (rw.headerSet "Content-Type" m.httpContentType).writeHeader
        m.httpResponseCode with
    | ok rw1 =>
      rw [call_html_ok m rw rw1 req env hen hst hp hw,
        call_html_ok { m with next := next2 } rw rw1 req env hen hst hp hw]
      exact ⟨rfl, rfl, rfl, rfl⟩
    | error p =>
      rw [call_html_panic m rw req env p hen hst hp hw,
        call_html_panic { m with next := next2 } rw req env p hen hst hp hw]
      exact ⟨rfl, rfl, rfl, rfl⟩

/-- While maintenance mode is active the sink, the trace and the end of the call
depend on the request and the environment only through the path test and the
result of the image read. -/
theorem call_active_congr (m : MaintenancePlugin σ) (rw : ResponseWriter)
    (req req2 : Request) (env env2 : Env σ) (hen : m.enabled = true)
    (hst : statOk env.fs m.triggerFilename = true)
    (hst2 : statOk env2.fs m.triggerFilename = true)
    (hpath : req.path = "/maintenance-image.png" ↔ req2.path = "/maintenance-image.png")
    (himg : env2.fs.readFile m.imageFile = env.fs.readFile m.imageFile) :
    (call m rw req2 env2).1 = (call m rw req env).1 ∧
    (call m rw req2 env2).2.rw = (call m rw req env).2.rw ∧
    (call m rw req2 env2).2.trace = (call m rw req env).2.trace := by
  by_cases hp : req.path = "/maintenance-image.png"
  · have hp2 := hpath.1 hp
    cases hi : env.fs.readFile m.imageFile with
    | ok img =>
      rw [call_image_ok m rw req env img hen hst hp hi,
        call_image_ok m rw req2 env2 img hen hst2 hp2 (himg.trans hi)]
      exact ⟨rfl, rfl, rfl⟩
    | error err =>
      rw [call_image_error m rw req env err hen hst hp hi,
        call_image_error m rw req2 env2 err hen hst2 hp2 (himg.trans hi)]
      exact ⟨rfl, rfl, rfl⟩
  · have hp2 : req2.path ≠ "/maintenance-image.png" := fun h => hp (hpath.2 h)
    cases hw : (rw.headerSet "Content-Type" m.httpContentType).writeHeader
        m.httpResponseCode with
    | ok rw1 =>
      rw [call_html_ok m rw rw1 req env hen hst hp hw,
        call_html_ok m rw rw1 req2 env2 hen hst2 hp2 hw]
      exact ⟨rfl, rfl, rfl⟩
    | error p =>
      rw [call_html_panic m rw req env p hen hst hp hw,
        call_html_panic m rw req2 env2 p hen hst2 hp2 hw]
      exact ⟨rfl, rfl, rfl⟩

theorem handle_fs_events (m : MaintenancePlugin σ) (rw : ResponseWriter) (req : Request)
    (env : Env σ) (e : Event) (he : e ∈ (handle m rw req env).trace) (hfs : e.isFs = true) :
    e = Event.stat m.triggerFilename ∨ e = Event.readFile m.imageFile := by
  cases hen : m.enabled with
  | false =>
    rw [handle_disabled m rw req env hen] at he
    simp at he
    subst he
    simp [Event.isFs] at hfs
  | true =>
    cases hst : statOk env.fs m.triggerFilename with
    | false =>
      rw [handle_noTrigger m rw req env hen hst] at he
      simp at he
      rcases he with he | he
      · exact Or.inl he
      · subst he; simp [Event.isFs] at hfs
    | true =>
      by_cases hp : req.path = "/maintenance-image.png"
      · cases hi : env.fs.readFile m.imageFile with
        | ok img =>
          rw [handle_image_ok m rw req env img hen hst hp hi] at he
          simp at he
          rcases he with he | he | he | he | he
          · exact Or.inl he
          · exact Or.inr he
          all_goals (subst he; simp [Event.isFs] at hfs)
        | error err =>
          rw [handle_image_error m rw req env err hen hst hp hi] at he
          simp at he
          rcases he with he | he | he | he | he | he | he
          · exact Or.inl he
          · exact Or.inr he
          all_goals (subst he; simp [Event.isFs] at hfs)
      · cases hw : (rw.headerSet "Content-Type" m.httpContentType).writeHeader
            m.httpResponseCode with
        | ok rw1 =>
          rw [handle, call_html_ok m rw rw1 req env hen hst hp hw] at he
          simp at he
          rcases he with he | he | he | he
          · exact Or.inl he
          all_goals (subst he; simp [Event.isFs] at hfs)
        | error p =>
          rw [handle, call_html_panic m rw req env p hen hst hp hw] at he
          simp at he
          rcases he with he | he | he
          · exact Or.inl he
          all_goals (subst he; simp [Event.isFs] at hfs)

theorem serveImage_frame (req : Request) (s : Machine σ) :
    (serveImage req s).2.self = s.self ∧ (serveImage req s).2.env = s.env := by
  have hw1 := writeHeader_final (s.rw.headerSet "Content-Type" "image/png") 200 (by omega)
  have hw2 := writeHeader_final
    (((s.rw.headerDel "Content-Length").headerSet "Content-Type"
      "text/plain; charset=utf-8").headerSet "X-Content-Type-Options" "nosniff") 404
    (by omega)
  cases hi : s.env.fs.readFile s.self.imageFile <;>
    simp [serveImage, httpError, receiver, ioutilReadFile, rwHeaderDel, rwHeaderSet,
      rwWriteHeader, rwWrite, hi, hw1, hw2, StatusOK, StatusNotFound, bind, ExceptT.bind,
      ExceptT.mk, ExceptT.bindCont, StateT.bind, pure, ExceptT.pure, StateT.pure]

/-! ## The claims -/

/-- C2: a plugin with `enabled = false` hands the sink and the request, as it
received them, to the downstream handler exactly once and does nothing else, not
even the stat of the trigger: the sink and the environment it leaves are those
the downstream handler leaves, whatever the filesystem and the path are. -/
theorem C2_disabled_forwards_unchanged (m : MaintenancePlugin σ) (rw : ResponseWriter)
    (req : Request) (env : Env σ) (hen : m.enabled = false) :
    (handle m rw req env).trace = [Event.serveNext rw req] ∧
    nextCalls (handle m rw req env).trace = 1 ∧
    (handle m rw req env).rw = (m.next.serveHTTP rw req env).1 ∧
    (handle m rw req env).env = (m.next.serveHTTP rw req env).2 := by
  rw [handle_disabled m rw req env hen]
  exact ⟨rfl, rfl, rfl, rfl⟩

/-- C2, at a concrete input: switched off, with the trigger in place and the
image path requested, the plugin forwards. -/
theorem C2_disabled_forwards_unchanged_witness :
    pluginOff.enabled = false ∧ statOk fsDemo pluginOff.triggerFilename = true ∧
    (handle pluginOff (ResponseWriter.fresh []) (reqDemo "/maintenance-image.png")
        ⟨fsDemo, 0⟩).trace =
      [Event.serveNext (ResponseWriter.fresh []) (reqDemo "/maintenance-image.png")] ∧
    (handle pluginOff (ResponseWriter.fresh []) (reqDemo "/maintenance-image.png")
        ⟨fsDemo, 0⟩).rw =
      (echoNext.serveHTTP (ResponseWriter.fresh []) (reqDemo "/maintenance-image.png")
        ⟨fsDemo, 0⟩).1 :=
  have h := C2_disabled_forwards_unchanged pluginOff (ResponseWriter.fresh [])
    (reqDemo "/maintenance-image.png") ⟨fsDemo, 0⟩ (by rfl)
  ⟨by rfl, by decide, h.1, h.2.2.1⟩

/-- C3: with `enabled = true`, when the stat of the trigger path returns an
error, whichever it is, `ServeHTTP` does the stat and then hands the sink and the
request, as it received them, to the downstream handler; the sink and the
environment it leaves are those the downstream handler leaves and the plugin
itself writes nothing to the sink.  And `fileExists` returns true exactly when
the stat returns no error. -/
theorem C3_stat_error_forwards (m : MaintenancePlugin σ) (rw : ResponseWriter)
    (req : Request) (env : Env σ) (err : IOError) (hen : m.enabled = true)
    (hstat : env.fs.stat m.triggerFilename = .error err) :
    (handle m rw req env).trace = [Event.stat m.triggerFilename, Event.serveNext rw req] ∧
    (handle m rw req env).rw = (m.next.serveHTTP rw req env).1 ∧
    (handle m rw req env).env = (m.next.serveHTTP rw req env).2 ∧
    (∀ e ∈ (handle m rw req env).trace, e.isSink = false) ∧
    (∀ (p : String) (s : Machine σ),
      ((fileExists p s).1 = .ok true ↔ ∃ info, s.env.fs.stat p = .ok info) ∧
      ((fileExists p s).1 = .ok false ↔ ∃ e, s.env.fs.stat p = .error e)) := by
  have hst : statOk env.fs m.triggerFilename = false :=
    (statOk_eq_false_iff _ _).2 ⟨err, hstat⟩
  rw [handle_noTrigger m rw req env hen hst]
  refine ⟨rfl, rfl, rfl, ?_, ?_⟩
  · intro e he
    simp at he
    rcases he with he | he <;> subst he <;> rfl
  · intro p s
    rw [fileExists_run]
    constructor
    · rw [← statOk_eq_true_iff]
      constructor
      · intro h; injection h
      · intro h; simp [h]
    · rw [← statOk_eq_false_iff]
      constructor
      · intro h; injection h
      · intro h; simp [h]

/-- C3, at a concrete input: the trigger is there but the stat is refused
(permission), and the request goes downstream. -/
theorem C3_stat_error_forwards_witness :
    pluginDemo.enabled = true ∧
    fsDenied.stat pluginDemo.triggerFilename = .error IOError.permission ∧
    (handle pluginDemo (ResponseWriter.fresh []) (reqDemo "/anything") ⟨fsDenied, 0⟩).rw =
      (echoNext.serveHTTP (ResponseWriter.fresh []) (reqDemo "/anything") ⟨fsDenied, 0⟩).1 :=
  have h := C3_stat_error_forwards pluginDemo (ResponseWriter.fresh []) (reqDemo "/anything")
    ⟨fsDenied, 0⟩ IOError.permission (by rfl) (by rfl)
  ⟨by rfl, by rfl, h.2.1⟩

/-- C4: with `enabled = true`, the stat of the trigger path succeeding, the
request path equal to `/maintenance-image.png` and the image file readable in the
filesystem of the request, `ServeHTTP` on a sink that has sent nothing ends
normally and leaves status 200, `Content-Type` `image/png` and the bytes that
filesystem holds for the image file, for every response code, content type and
image path of the plugin. -/
theorem C4_image_served_fresh (m : MaintenancePlugin σ) (rw : ResponseWriter)
    (req : Request) (env : Env σ) (img : Bytes) (hen : m.enabled = true)
    (htrigger : statOk env.fs m.triggerFilename = true)
    (hpath : req.path = "/maintenance-image.png")
    (himg : env.fs.readFile m.imageFile = .ok img)
    (hrw : rw.wroteHeader = false) (hbody : rw.body = []) :
    (handle m rw req env).rw.wroteHeader = true ∧
    (handle m rw req env).rw.status = 200 ∧
    Header.values (handle m rw req env).rw.sent "Content-Type" = some ["image/png"] ∧
    (handle m rw req env).rw.body = img ∧
    (handle m rw req env).trace =
      [Event.stat m.triggerFilename, Event.readFile m.imageFile,
       Event.headerSet "Content-Type" "image/png", Event.writeHeader 200,
       Event.write img] ∧
    outcome m rw req env = .ok () := by
  rw [outcome, handle, call_image_ok m rw req env img hen htrigger hpath himg,
    sink_reply _ _ _ _ _ hrw]
  simp [Header.values_set, hbody]

/-- C4, at a concrete input: the image of `fsDemo` is served with 200 and
`image/png` by a plugin configured for 503 and `text/html`. -/
theorem C4_image_served_fresh_witness :
    pluginDemo.httpResponseCode = 503 ∧
    (handle pluginDemo (ResponseWriter.fresh []) (reqDemo "/maintenance-image.png")
        ⟨fsDemo, 0⟩).rw.status = 200 ∧
    Header.values (handle pluginDemo (ResponseWriter.fresh [])
        (reqDemo "/maintenance-image.png") ⟨fsDemo, 0⟩).rw.sent "Content-Type" =
      some ["image/png"] ∧
    (handle pluginDemo (ResponseWriter.fresh []) (reqDemo "/maintenance-image.png")
        ⟨fsDemo, 0⟩).rw.body = [137, 80] :=
  have h := C4_image_served_fresh pluginDemo (ResponseWriter.fresh [])
    (reqDemo "/maintenance-image.png") ⟨fsDemo, 0⟩ [137, 80] (by rfl) (by decide) (by rfl)
    (by rfl) (by rfl) (by rfl)
  ⟨by rfl, h.2.1, h.2.2.1, h.2.2.2.1⟩

/-- C5: with `enabled = true`, the stat of the trigger path succeeding, the
request path equal to `/maintenance-image.png` and the read of the image file
failing, `ServeHTTP` on a sink that has sent nothing ends normally and leaves
status 404, `Content-Type` `text/plain; charset=utf-8` and the body
`Image not found` followed by a newline, whatever the configured code and page
are; the plugin and the environment are as before the request, so that every
later call is answered as if the failed one had not happened. -/
theorem C5_image_read_failure_is_404 (m : MaintenancePlugin σ) (rw : ResponseWriter)
    (req : Request) (env : Env σ) (err : IOError) (hen : m.enabled = true)
    (htrigger : statOk env.fs m.triggerFilename = true)
    (hpath : req.path = "/maintenance-image.png")
    (himg : env.fs.readFile m.imageFile = .error err)
    (hrw : rw.wroteHeader = false) (hbody : rw.body = []) :
    (handle m rw req env).rw.wroteHeader = true ∧
    (handle m rw req env).rw.status = 404 ∧
    Header.values (handle m rw req env).rw.sent "Content-Type" =
      some ["text/plain; charset=utf-8"] ∧
    (handle m rw req env).rw.body = literalBytes "Image not found\n" ∧
    (handle m rw req env).self = m ∧
    (handle m rw req env).env = env ∧
    (∀ (rw2 : ResponseWriter) (req2 : Request) (env2 : Env σ),
      handle (handle m rw req env).self rw2 req2 env2 = handle m rw2 req2 env2) ∧
    (∀ (rw2 : ResponseWriter) (req2 : Request),
      handle (handle m rw req env).self rw2 req2 (handle m rw req env).env =
        handle m rw2 req2 env) ∧
    outcome m rw req env = .ok () := by
  have hlit : literalBytes "Image not found\n" =
      [73, 109, 97, 103, 101, 32, 110, 111, 116, 32, 102, 111, 117, 110, 100, 10] := by
    decide
  rw [outcome, handle, call_image_error m rw req env err hen htrigger hpath himg,
    sink_error_reply _ _ _ _ _ _ _ _ hrw, hlit]
  refine ⟨rfl, rfl, ?_, ?_, rfl, rfl, fun _ _ _ => rfl, fun _ _ => rfl, rfl⟩
  · rw [Header.values_set_of_ne _ _ _ _ (by decide), Header.values_set]
  · simp [hbody]

/-- C5, at a concrete input: the image is gone, the answer is 404 and not the
page. -/
theorem C5_image_read_failure_is_404_witness :
    fsTriggerOnly.readFile pluginDemo.imageFile = .error IOError.notExist ∧
    (handle pluginDemo (ResponseWriter.fresh []) (reqDemo "/maintenance-image.png")
        ⟨fsTriggerOnly, 0⟩).rw.status = 404 ∧
    (handle pluginDemo (ResponseWriter.fresh []) (reqDemo "/maintenance-image.png")
        ⟨fsTriggerOnly, 0⟩).rw.body = literalBytes "Image not found\n" :=
  have h := C5_image_read_failure_is_404 pluginDemo (ResponseWriter.fresh [])
    (reqDemo "/maintenance-image.png") ⟨fsTriggerOnly, 0⟩ IOError.notExist (by rfl)
    (by decide) (by rfl) (by rfl) (by rfl) (by rfl)
  ⟨by rfl, h.2.1, h.2.2.2.1⟩

/-- C6: `New` returns an error, and with it no plugin, exactly when the read of
`config.Filename` fails, and the error is the one of the read; this for every
value of `Enabled`, `TriggerFilename` and `ImageFile` and every state of the rest
of the filesystem.  When the read succeeds `New` returns a plugin whose fields
are those of the configuration, the downstream handler and the name it was
given, and whose page, as stored and as `ServeHTTP` converts it back to bytes, is
the bytes just read. -/
theorem C6_New_fails_iff_html_unreadable (fs : FileSystem) (next : Handler σ)
    (config : Config) (name : String) :
    ((∃ err, New fs next config name = .error err) ↔
      ∃ err, fs.readFile config.Filename = .error err) ∧
    (∀ err, fs.readFile config.Filename = .error err →
      New fs next config name = .error err) ∧
    (∀ html, fs.readFile config.Filename = .ok html →
      ∃ m : MaintenancePlugin σ, New fs next config name = .ok m ∧
        m.next = next ∧ m.name = name ∧ m.enabled = config.Enabled ∧
        m.filename = config.Filename ∧ m.triggerFilename = config.TriggerFilename ∧
        m.httpResponseCode = config.HTTPResponseCode ∧
        m.httpContentType = config.HTTPContentType ∧ m.imageFile = config.ImageFile ∧
        m.htmlContent.bytes = html ∧ GoString.toBytes m.htmlContent = html) := by
  refine ⟨?_, fun err h => New_error fs next config name err h, fun html h => ?_⟩
  · cases hread : fs.readFile config.Filename with
    | error err =>
      rw [New_error fs next config name err hread]
      exact ⟨fun _ => ⟨err, rfl⟩, fun _ => ⟨err, rfl⟩⟩
    | ok html =>
      rw [New_ok fs next config name html hread]
      constructor
      · rintro ⟨err, h⟩
        cases h
      · rintro ⟨err, h⟩
        cases h
  · exact ⟨_, New_ok fs next config name html h, rfl, rfl, rfl, rfl, rfl, rfl, rfl, rfl, rfl,
      rfl⟩

/-- C6, at a concrete input: with the page missing, construction fails although
the plugin is switched off and the trigger exists; with the page in place the
plugin holds its three bytes. -/
theorem C6_New_fails_iff_html_unreadable_witness :
    statOk fsTriggerOnly "/t" = true ∧
    New fsTriggerOnly echoNext { cfgDemo with Enabled := false } "maintenance" =
      .error IOError.notExist ∧
    ∃ m : MaintenancePlugin Nat, New fsDemo echoNext cfgDemo "maintenance" = .ok m ∧
      m.htmlContent.bytes = [60, 104, 62] ∧ m.httpResponseCode = 503 := by
  refine ⟨by decide,
    (C6_New_fails_iff_html_unreadable fsTriggerOnly echoNext { cfgDemo with Enabled := false }
      "maintenance").2.1 IOError.notExist (by rfl), ?_⟩
  obtain ⟨m, hm, _, _, _, _, _, hcode, _, _, hbytes, _⟩ :=
    (C6_New_fails_iff_html_unreadable fsDemo echoNext cfgDemo "maintenance").2.2
      [60, 104, 62] (by rfl)
  exact ⟨m, hm, hbytes, hcode⟩

/-- C7: while maintenance mode is active (`enabled = true` and the stat of the
trigger succeeds) `ServeHTTP` does not invoke the downstream handler, whichever
branch it takes: the trace has no call of it, the environment is left as found,
and the end of the call, the sink, the environment and the trace are the same
whatever downstream handler the plugin holds.  When `enabled = false` or the
stat fails it invokes it once, on the sink and the request it received, and
leaves the sink and the environment that this one invocation leaves.  So the
number of invocations is one exactly in the latter case and never more. -/
theorem C7_downstream_only_when_inactive (m : MaintenancePlugin σ) (rw : ResponseWriter)
    (req : Request) (env : Env σ) :
    (m.enabled = true ∧ statOk env.fs m.triggerFilename = true →
      nextCalls (handle m rw req env).trace = 0 ∧
      (handle m rw req env).env = env ∧
      ∀ next2 : Handler σ,
        outcome { m with next := next2 } rw req env = outcome m rw req env ∧
        (handle { m with next := next2 } rw req env).rw = (handle m rw req env).rw ∧
        (handle { m with next := next2 } rw req env).env = (handle m rw req env).env ∧
        (handle { m with next := next2 } rw req env).trace = (handle m rw req env).trace) ∧
    (m.enabled = false ∨ statOk env.fs m.triggerFilename = false →
      nextCalls (handle m rw req env).trace = 1 ∧
      Event.serveNext rw req ∈ (handle m rw req env).trace ∧
      (handle m rw req env).rw = (m.next.serveHTTP rw req env).1 ∧
      (handle m rw req env).env = (m.next.serveHTTP rw req env).2) ∧
    (nextCalls (handle m rw req env).trace = 1 ↔
      (m.enabled = false ∨ statOk env.fs m.triggerFilename = false)) ∧
    nextCalls (handle m rw req env).trace ≤ 1 := by
  have hactive : m.enabled = true ∧ statOk env.fs m.triggerFilename = true →
      nextCalls (handle m rw req env).trace = 0 ∧
      (handle m rw req env).env = env ∧
      ∀ next2 : Handler σ,
        outcome { m with next := next2 } rw req env = outcome m rw req env ∧
        (handle { m with next := next2 } rw req env).rw = (handle m rw req env).rw ∧
        (handle { m with next := next2 } rw req env).env = (handle m rw req env).env ∧
        (handle { m with next := next2 } rw req env).trace =
          (handle m rw req env).trace := by
    rintro ⟨ha, hb⟩
    exact ⟨handle_nextCalls_active m rw req env ha hb, handle_env_active m rw req env ha hb,
      fun next2 => call_active_next_irrelevant m next2 rw req env ha hb⟩
  have hinactive : m.enabled = false ∨ statOk env.fs m.triggerFilename = false →
      nextCalls (handle m rw req env).trace = 1 ∧
      Event.serveNext rw req ∈ (handle m rw req env).trace ∧
      (handle m rw req env).rw = (m.next.serveHTTP rw req env).1 ∧
      (handle m rw req env).env = (m.next.serveHTTP rw req env).2 := by
    intro h
    refine ⟨handle_nextCalls_inactive m rw req env h, ?_⟩
    cases hen : m.enabled with
    | false =>
      rw [handle_disabled m rw req env hen]
      exact ⟨by simp, rfl, rfl⟩
    | true =>
      have hst : statOk env.fs m.triggerFilename = false := by
        rcases h with h | h
        · rw [hen] at h; cases h
        · exact h
      rw [handle_noTrigger m rw req env hen hst]
      exact ⟨by simp, rfl, rfl⟩
  refine ⟨hactive, hinactive, ?_, ?_⟩
  · constructor
    · intro h1
      by_contra hno
      have ha : m.enabled = true := by
        cases hen : m.enabled with
        | false => exact absurd (Or.inl hen) hno
        | true => rfl
      have hb : statOk env.fs m.triggerFilename = true := by
        cases hst : statOk env.fs m.triggerFilename with
        | false => exact absurd (Or.inr hst) hno
        | true => rfl
      have h0 := (hactive ⟨ha, hb⟩).1
      omega
    · intro h
      exact (hinactive h).1
  · by_cases h : m.enabled = false ∨ statOk env.fs m.triggerFilename = false
    · have := (hinactive h).1
      omega
    · have ha : m.enabled = true := by
        cases hen : m.enabled with
        | false => exact absurd (Or.inl hen) h
        | true => rfl
      have hb : statOk env.fs m.triggerFilename = true := by
        cases hst : statOk env.fs m.triggerFilename with
        | false => exact absurd (Or.inr hst) h
        | true => rfl
      have := (hactive ⟨ha, hb⟩).1
      omega

/-- C7, at a concrete input: with the trigger in place and the image unreadable
the 404 is the same whether the plugin holds the echoing or the teapot handler,
and no call of either is in the trace; switched off, the plugin leaves what the
echoing handler answers, status 200 with the body of the request. -/
theorem C7_downstream_only_when_inactive_witness :
    nextCalls (handle pluginDemo (ResponseWriter.fresh []) (reqDemo "/maintenance-image.png")
      ⟨fsTriggerOnly, 0⟩).trace = 0 ∧
    (handle { pluginDemo with next := teapotNext } (ResponseWriter.fresh [])
      (reqDemo "/maintenance-image.png") ⟨fsTriggerOnly, 0⟩).rw =
      (handle pluginDemo (ResponseWriter.fresh []) (reqDemo "/maintenance-image.png")
        ⟨fsTriggerOnly, 0⟩).rw ∧
    (handle pluginOff (ResponseWriter.fresh []) (reqDemo "/anything") ⟨fsDemo, 0⟩).rw =
      (echoNext.serveHTTP (ResponseWriter.fresh []) (reqDemo "/anything") ⟨fsDemo, 0⟩).1 ∧
    (handle pluginOff (ResponseWriter.fresh []) (reqDemo "/anything") ⟨fsDemo, 0⟩).rw.status =
      200 ∧
    (handle pluginOff (ResponseWriter.fresh []) (reqDemo "/anything") ⟨fsDemo, 0⟩).rw.body =
      [7] ∧
    (handle pluginOff (ResponseWriter.fresh []) (reqDemo "/anything") ⟨fsDemo, 0⟩).env.down =
      1 :=
  have h1 := (C7_downstream_only_when_inactive pluginDemo (ResponseWriter.fresh [])
    (reqDemo "/maintenance-image.png") ⟨fsTriggerOnly, 0⟩).1 ⟨by rfl, by decide⟩
  have h2 := (C7_downstream_only_when_inactive pluginOff (ResponseWriter.fresh [])
    (reqDemo "/anything") ⟨fsDemo, 0⟩).2.1 (Or.inl (by rfl))
  ⟨h1.1, (h1.2.2 teapotNext).2.1, h2.2.2.1, by decide, by decide, by decide⟩

/-- C8: handling a request leaves the plugin as it was, and handling the same
request again on an identical sink, in an environment where the stat of the
trigger has the same outcome and the read of the image file the same result,
leaves the same sink and the same trace; in the forwarding case this is under
the condition that the downstream handler leaves the same sink for the same
request.  When maintenance mode is active the first handling leaves the
environment as it was, so that the second handling right after it gives the same
response. -/
theorem C8_idempotent (m : MaintenancePlugin σ) (rw : ResponseWriter) (req : Request)
    (env env2 : Env σ)
    (htrig : statOk env2.fs m.triggerFilename = statOk env.fs m.triggerFilename)
    (himg : env2.fs.readFile m.imageFile = env.fs.readFile m.imageFile)
    (hdown : (m.enabled = false ∨ statOk env.fs m.triggerFilename = false) →
      (m.next.serveHTTP rw req env2).1 = (m.next.serveHTTP rw req env).1) :
    (handle m rw req env).self = m ∧
    (handle (handle m rw req env).self rw req env2).rw = (handle m rw req env).rw ∧
    (handle (handle m rw req env).self rw req env2).trace = (handle m rw req env).trace ∧
    (m.enabled = true ∧ statOk env.fs m.triggerFilename = true →
      (handle m rw req env).env = env ∧
      (handle (handle m rw req env).self rw req (handle m rw req env).env).rw =
        (handle m rw req env).rw) ∧
    outcome (handle m rw req env).self rw req env2 = outcome m rw req env := by
  rw [handle_self m rw req env]
  have hall : (handle m rw req env2).rw = (handle m rw req env).rw ∧
      (handle m rw req env2).trace = (handle m rw req env).trace ∧
      outcome m rw req env2 = outcome m rw req env := by
    cases hen : m.enabled with
    | false =>
      rw [outcome, outcome, handle, handle, call_disabled m rw req env hen,
        call_disabled m rw req env2 hen]
      exact ⟨hdown (Or.inl hen), rfl, rfl⟩
    | true =>
      cases hst : statOk env.fs m.triggerFilename with
      | false =>
        rw [outcome, outcome, handle, handle, call_noTrigger m rw req env hen hst,
          call_noTrigger m rw req env2 hen (htrig.trans hst)]
        exact ⟨hdown (Or.inr hst), rfl, rfl⟩
      | true =>
        have h := call_active_congr m rw req req env env2 hen hst (htrig.trans hst)
          Iff.rfl himg
        exact ⟨h.2.1, h.2.2, h.1⟩
  refine ⟨rfl, hall.1, hall.2.1, ?_, hall.2.2⟩
  rintro ⟨hen, hst⟩
  have henv := handle_env_active m rw req env hen hst
  exact ⟨henv, by rw [henv]⟩

/-- C8, at a concrete input: the switched-off plugin forwards twice, the
downstream handler having counted one call in between, and the sink is the
same. -/
theorem C8_idempotent_witness :
    (handle pluginOff (ResponseWriter.fresh []) (reqDemo "/anything") ⟨fsDemo, 0⟩).env.down
      = 1 ∧
    (handle (handle pluginOff (ResponseWriter.fresh []) (reqDemo "/anything")
        ⟨fsDemo, 0⟩).self (ResponseWriter.fresh []) (reqDemo "/anything") ⟨fsDemo, 1⟩).rw =
      (handle pluginOff (ResponseWriter.fresh []) (reqDemo "/anything") ⟨fsDemo, 0⟩).rw :=
  ⟨by decide,
    (C8_idempotent pluginOff (ResponseWriter.fresh []) (reqDemo "/anything") ⟨fsDemo, 0⟩
      ⟨fsDemo, 1⟩ (by rfl) (by rfl) (fun _ => by rfl)).2.1⟩

/-- C9: `ServeHTTP` and `serveImage` leave the plugin as it was, field for field;
the filesystem accesses of `ServeHTTP` are the stat of the trigger path and the
read of the image file and nothing else; the environment it leaves is the one it
found when maintenance mode is active, and the one the downstream handler leaves
otherwise; and `New` looks at the filesystem through the read of
`config.Filename` only. -/
theorem C9_frame (m : MaintenancePlugin σ) (rw : ResponseWriter) (req : Request)
    (env : Env σ) :
    (handle m rw req env).self = m ∧
    (∀ s : Machine σ, (serveImage req s).2.self = s.self ∧ (serveImage req s).2.env = s.env) ∧
    (∀ e ∈ (handle m rw req env).trace, e.isFs = true →
      e = Event.stat m.triggerFilename ∨ e = Event.readFile m.imageFile) ∧
    (handle m rw req env).env =
      (if m.enabled && statOk env.fs m.triggerFilename then env
       else (m.next.serveHTTP rw req env).2) ∧
    (∀ (fs fs2 : FileSystem) (next : Handler σ) (config : Config) (name : String),
      fs.readFile config.Filename = fs2.readFile config.Filename →
      New fs next config name = New fs2 next config name) := by
  refine ⟨handle_self m rw req env, fun s => serveImage_frame req s,
    fun e he hfs => handle_fs_events m rw req env e he hfs, ?_, ?_⟩
  · cases hen : m.enabled with
    | false => rw [handle_disabled m rw req env hen]; rfl
    | true =>
      cases hst : statOk env.fs m.triggerFilename with
      | false => rw [handle_noTrigger m rw req env hen hst]; rfl
      | true => rw [handle_env_active m rw req env hen hst]; rfl
  · intro fs fs2 next config name h
    simp only [New, h]

/-- C9, at a concrete input: after serving the page the plugin still holds the
page and its code. -/
theorem C9_frame_witness :
    (handle pluginDemo (ResponseWriter.fresh []) (reqDemo "/anything") ⟨fsDemo, 0⟩).self.htmlContent
      = ⟨[60, 104, 62]⟩ ∧
    (handle pluginDemo (ResponseWriter.fresh []) (reqDemo "/anything")
      ⟨fsDemo, 0⟩).self.httpResponseCode = 503 :=
  have h := (C9_frame pluginDemo (ResponseWriter.fresh []) (reqDemo "/anything")
    ⟨fsDemo, 0⟩).1
  ⟨by rw [h]; rfl, by rw [h]; rfl⟩

/-- C10: while maintenance mode is active, `ServeHTTP` reads the image file
exactly when the request path is the string `/maintenance-image.png`; every
other path gets the page reply, which is: the content type set, then, if
`WriteHeader` of the configured code ends normally, the page written on the sink
it leaves, and otherwise the panic with nothing more done; two requests that
agree on whether their path is that string end the same way and leave the same
store, whatever else differs between them; the paths `/maintenance-image.png/`,
`/Maintenance-Image.png`, `/x/maintenance-image.png` and the empty path get the
page reply. -/
theorem C10_only_the_path_is_consulted (m : MaintenancePlugin σ) (rw : ResponseWriter)
    (env : Env σ) (hen : m.enabled = true)
    (htrigger : statOk env.fs m.triggerFilename = true) :
    (∀ req : Request, Event.readFile m.imageFile ∈ (handle m rw req env).trace ↔
      req.path = "/maintenance-image.png") ∧
    (∀ req : Request, req.path ≠ "/maintenance-image.png" →
      (∀ rw1 : ResponseWriter,
        (rw.headerSet "Content-Type" m.httpContentType).writeHeader m.httpResponseCode =
          .ok rw1 →
        (handle m rw req env).rw = rw1.write m.htmlContent.toBytes ∧
        outcome m rw req env = .ok ()) ∧
      (∀ p : Panic,
        (rw.headerSet "Content-Type" m.httpContentType).writeHeader m.httpResponseCode =
          .error p →
        (handle m rw req env).rw = rw.headerSet "Content-Type" m.httpContentType ∧
        outcome m rw req env = .error p)) ∧
    (∀ req1 req2 : Request,
      (req1.path = "/maintenance-image.png" ↔ req2.path = "/maintenance-image.png") →
      handle m rw req1 env = handle m rw req2 env ∧
      outcome m rw req1 env = outcome m rw req2 env) ∧
    (∀ req : Request,
      req.path ∈ ["/maintenance-image.png/", "/Maintenance-Image.png",
        "/x/maintenance-image.png", ""] →
      (∀ rw1 : ResponseWriter,
        (rw.headerSet "Content-Type" m.httpContentType).writeHeader m.httpResponseCode =
          .ok rw1 →
        (handle m rw req env).rw = rw1.write m.htmlContent.toBytes ∧
        outcome m rw req env = .ok ()) ∧
      (∀ p : Panic,
        (rw.headerSet "Content-Type" m.httpContentType).writeHeader m.httpResponseCode =
          .error p →
        (handle m rw req env).rw = rw.headerSet "Content-Type" m.httpContentType ∧
        outcome m rw req env = .error p)) := by
  have hpage : ∀ req : Request, req.path ≠ "/maintenance-image.png" →
      (∀ rw1 : ResponseWriter,
        (rw.headerSet "Content-Type" m.httpContentType).writeHeader m.httpResponseCode =
          .ok rw1 →
        (handle m rw req env).rw = rw1.write m.htmlContent.toBytes ∧
        outcome m rw req env = .ok ()) ∧
      (∀ p : Panic,
        (rw.headerSet "Content-Type" m.httpContentType).writeHeader m.httpResponseCode =
          .error p →
        (handle m rw req env).rw = rw.headerSet "Content-Type" m.httpContentType ∧
        outcome m rw req env = .error p) := by
    intro req hp
    constructor
    · intro rw1 hw
      rw [outcome, handle, call_html_ok m rw rw1 req env hen htrigger hp hw]
      exact ⟨rfl, rfl⟩
    · intro p hw
      rw [outcome, handle, call_html_panic m rw req env p hen htrigger hp hw]
      exact ⟨rfl, rfl⟩
  refine ⟨?_, hpage, ?_, ?_⟩
  · intro req
    by_cases hp : req.path = "/maintenance-image.png"
    · cases hi : env.fs.readFile m.imageFile with
      | ok img => rw [handle_image_ok m rw req env img hen htrigger hp hi]; simp [hp]
      | error err => rw [handle_image_error m rw req env err hen htrigger hp hi]; simp [hp]
    · cases hw : (rw.headerSet "Content-Type" m.httpContentType).writeHeader
          m.httpResponseCode with
      | ok rw1 => rw [handle, call_html_ok m rw rw1 req env hen htrigger hp hw]; simp [hp]
      | error p => rw [handle, call_html_panic m rw req env p hen htrigger hp hw]; simp [hp]
  · intro req1 req2 hiff
    rw [outcome, outcome, handle, handle]
    by_cases hp : req1.path = "/maintenance-image.png"
    · have hp2 := hiff.1 hp
      cases hi : env.fs.readFile m.imageFile with
      | ok img =>
        rw [call_image_ok m rw req1 env img hen htrigger hp hi,
          call_image_ok m rw req2 env img hen htrigger hp2 hi]
        exact ⟨rfl, rfl⟩
      | error err =>
        rw [call_image_error m rw req1 env err hen htrigger hp hi,
          call_image_error m rw req2 env err hen htrigger hp2 hi]
        exact ⟨rfl, rfl⟩
    · have hp2 : req2.path ≠ "/maintenance-image.png" := fun h => hp (hiff.2 h)
      rw [call_html m rw req1 env hen htrigger hp, call_html m rw req2 env hen htrigger hp2]
      exact ⟨rfl, rfl⟩
  · intro req hmem
    apply hpage
    intro hp
    rw [hp] at hmem
    revert hmem
    decide

/-- C10, at a concrete input: a `GET` and a `POST` that differ in path, query,
headers and body get the same page, and the image path with a trailing slash
gets the page too. -/
theorem C10_only_the_path_is_consulted_witness :
    reqDemo "/a" ≠ reqPost "/b/c" ∧
    handle pluginDemo (ResponseWriter.fresh []) (reqDemo "/a") ⟨fsDemo, 0⟩ =
      handle pluginDemo (ResponseWriter.fresh []) (reqPost "/b/c") ⟨fsDemo, 0⟩ ∧
    (handle pluginDemo (ResponseWriter.fresh []) (reqDemo "/maintenance-image.png/")
      ⟨fsDemo, 0⟩).rw.status = 503 ∧
    (handle pluginDemo (ResponseWriter.fresh []) (reqDemo "/maintenance-image.png/")
      ⟨fsDemo, 0⟩).rw.body = [60, 104, 62] :=
  have h := C10_only_the_path_is_consulted pluginDemo (ResponseWriter.fresh []) ⟨fsDemo, 0⟩
    (by rfl) (by decide)
  have h4 := ((h.2.2.2 (reqDemo "/maintenance-image.png/") (by decide)).1
    (((ResponseWriter.fresh []).headerSet "Content-Type"
      pluginDemo.httpContentType).finalHeader 503) (by rfl)).1
  ⟨by decide, (h.2.2.1 (reqDemo "/a") (reqPost "/b/c") (by decide)).1,
    by rw [h4]; decide, by rw [h4]; decide⟩

end Maintenance
